import Mathlib

/-!
Verification of the filter/aggregate pipeline and dataset loader of the
California infectious-disease dashboard (files `dash_app.py` and
`streamlit_app.py`).  The pipeline is embedded shallowly: a pandas
DataFrame row becomes a `CaseRecord`, the four dropdown values become a
`FilterSelection` of raw strings (the wildcard sentinels are the literal
strings used by the apps), and the body of `update_dashboard` /
the module-level filtering code of the Streamlit app becomes `aggregate`.
-/

/-- A row of `california_infectious_diseases.csv` as parsed by
`pd.read_csv`: string columns `Disease`, `County`, `Sex` and integer
columns `Year`, `Cases`. -/
structure CaseRecord where
  disease : String
  county : String
  year : Int
  sex : String
  cases : Int
deriving DecidableEq

/-- The four dropdown values handed to `update_dashboard` (all raw
strings; the year is a string that the code converts with `int(year)`).
Wildcards are the sentinel strings `All Diseases`, `All Counties`,
`All Years`, `All`. -/
structure FilterSelection where
  disease : String
  county : String
  year : String
  sex : String
deriving DecidableEq

/-- Result of one run of the pipeline: the three metric-card values,
the bar/line chart data (`bar_data`) and the map data (`map_data`). -/
structure AggregateResult where
  totalCases : Int
  firstYear : Option Int
  lastYear : Option Int
  byYear : List (Int × Int)
  byCounty : List (String × Int)
deriving DecidableEq

instance {ε α : Type} [DecidableEq ε] [DecidableEq α] : DecidableEq (Except ε α) :=
  fun a b =>
    match a, b with
    | .error e₁, .error e₂ =>
      if h : e₁ = e₂ then isTrue (by rw [h]) else isFalse (by intro hc; cases hc; exact h rfl)
    | .error _, .ok _ => isFalse (by intro hc; cases hc)
    | .ok _, .error _ => isFalse (by intro hc; cases hc)
    | .ok a₁, .ok a₂ =>
      if h : a₁ = a₂ then isTrue (by rw [h]) else isFalse (by intro hc; cases hc; exact h rfl)

/-! ### Python `int(str)` conversion, as used in `int(year)` -/

/-- ASCII whitespace stripped by Python `int(str)`. -/
def isPySpace (c : Char) : Bool :=
  c == ' ' || c == '\t' || c == '\n' || c == '\r' || c == '\x0b' || c == '\x0c'

def isAsciiDigit (c : Char) : Bool :=
  '0' ≤ c && c ≤ '9'

/-- Digits possibly separated by single underscores, continuing after a
leading digit has been read; `none` on a malformed tail. -/
def pyDigitsAux : List Char → Nat → Option Nat
  | [], acc => some acc
  | c :: rest, acc =>
    if isAsciiDigit c then pyDigitsAux rest (10 * acc + (c.toNat - 48))
    else if c == '_' then
      match rest with
      | [] => none
      | d :: rest₂ =>
        if isAsciiDigit d then pyDigitsAux rest₂ (10 * acc + (d.toNat - 48)) else none
    else none

/-- A nonempty run of digits (Python also allows `1_000` style
underscores between digits). -/
def pyDigits : List Char → Option Nat
  | [] => none
  | c :: rest => if isAsciiDigit c then pyDigitsAux rest (c.toNat - 48) else none

/-- `int(s)` for a Python string `s`: optional surrounding whitespace,
optional sign, then decimal digits; `none` models the `ValueError`. -/
def pythonInt (s : String) : Option Int :=
  let core := ((s.data.dropWhile isPySpace).reverse.dropWhile isPySpace).reverse
  match core with
  | '+' :: rest => (pyDigits rest).map Int.ofNat
  | '-' :: rest => (pyDigits rest).map (fun n => -(n : Int))
  | rest => (pyDigits rest).map Int.ofNat

/-! ### Python `str.title()`, as used by `map_data['County'].str.title()` -/

def isAsciiAlpha (c : Char) : Bool :=
  ('a' ≤ c && c ≤ 'z') || ('A' ≤ c && c ≤ 'Z')

def asciiUpper (c : Char) : Char :=
  if 'a' ≤ c && c ≤ 'z' then Char.ofNat (c.toNat - 32) else c

def asciiLower (c : Char) : Char :=
  if 'A' ≤ c && c ≤ 'Z' then Char.ofNat (c.toNat + 32) else c

/-- One pass of `str.title()`: a letter is uppercased when the previous
character was not a letter, lowercased otherwise. -/
def titleAux : List Char → Bool → List Char
  | [], _ => []
  | c :: rest, prevAlpha =>
    (if isAsciiAlpha c then (if prevAlpha then asciiLower c else asciiUpper c) else c)
      :: titleAux rest (isAsciiAlpha c)

def pyTitle (s : String) : String :=
  ⟨titleAux s.data false⟩

/-! ### The filter step (`update_dashboard` lines 102-106) -/

/-- `if disease!='All Diseases': dff = dff[dff['Disease']==disease]` -/
def applyDiseaseFilter (sel : FilterSelection) (l : List CaseRecord) : List CaseRecord :=
  if sel.disease == "All Diseases" then l
  else l.filter (fun r => r.disease == sel.disease)

/-- `if county != 'All Counties': dff = dff[dff['County']==county]` -/
def applyCountyFilter (sel : FilterSelection) (l : List CaseRecord) : List CaseRecord :=
  if sel.county == "All Counties" then l
  else l.filter (fun r => r.county == sel.county)

/-- `if year != 'All Years': dff = dff[dff['Year']==int(year)]` — the
`int(year)` conversion raises `ValueError` on a non-numeric string. -/
def applyYearFilter (sel : FilterSelection) (l : List CaseRecord) :
    Except String (List CaseRecord) :=
  if sel.year == "All Years" then .ok l
  else
    match pythonInt sel.year with
    | none => .error "ValueError"
    | some y => .ok (l.filter (fun r => r.year == y))

/-- `if sex != 'All': dff = dff[dff['Sex']==sex]` -/
def applySexFilter (sel : FilterSelection) (l : List CaseRecord) : List CaseRecord :=
  if sel.sex == "All" then l
  else l.filter (fun r => r.sex == sel.sex)

/-- The filtered frame `dff`: the four filters applied in source order
to a copy of the full table. -/
def filteredRecords (df : List CaseRecord) (sel : FilterSelection) :
    Except String (List CaseRecord) :=
  (applyYearFilter sel (applyCountyFilter sel (applyDiseaseFilter sel df))).map
    (applySexFilter sel)

/-! ### Summary metrics and grouped aggregates -/

/-- `dff['Cases'].sum()` (0 on an empty frame). -/
def sumCases (l : List CaseRecord) : Int :=
  (l.map (·.cases)).sum

/-- `dff['Year'].min() if not dff.empty else None`. -/
def colMin : List Int → Option Int
  | [] => none
  | y :: ys =>
    some (match colMin ys with
          | none => y
          | some m => min y m)

/-- `dff['Year'].max() if not dff.empty else None`. -/
def colMax : List Int → Option Int
  | [] => none
  | y :: ys =>
    some (match colMax ys with
          | none => y
          | some m => max y m)

/-- Code-point lexicographic comparison of char lists: the order in
which `sorted` ranks Python strings. -/
def charListLe : List Char → List Char → Bool
  | [], _ => true
  | _ :: _, [] => false
  | a :: as, b :: bs =>
    if a.toNat < b.toNat then true
    else if b.toNat < a.toNat then false
    else charListLe as bs

def strLeB (a b : String) : Bool :=
  charListLe a.data b.data

/-- `strLeB` as a relation, for use with `List.insertionSort`. -/
def strLeRel (a b : String) : Prop :=
  strLeB a b = true

instance : DecidableRel strLeRel :=
  fun a b => instDecidableEqBool (strLeB a b) true

def yearsOf (l : List CaseRecord) : List Int :=
  l.map (·.year)

def countiesOf (l : List CaseRecord) : List String :=
  l.map (·.county)

/-- `dff.groupby('Year')['Cases'].sum().reset_index()`: pandas emits one
row per distinct key, keys sorted ascending. -/
def barData (l : List CaseRecord) : List (Int × Int) :=
  (List.insertionSort (· ≤ ·) (yearsOf l).dedup).map
    (fun y => (y, sumCases (l.filter (fun r => r.year == y))))

/-- `dff.groupby('County')['Cases'].sum().reset_index()` before the
title-casing step: one row per distinct raw county, sorted ascending. -/
def mapDataRaw (l : List CaseRecord) : List (String × Int) :=
  (List.insertionSort strLeRel (countiesOf l).dedup).map
    (fun c => (c, sumCases (l.filter (fun r => r.county == c))))

/-- `map_data['County'] = map_data['County'].str.title()` applied to the
grouped frame. -/
def mapData (l : List CaseRecord) : List (String × Int) :=
  (mapDataRaw l).map (fun p => (pyTitle p.1, p.2))

/-- The values `update_dashboard` derives from the filtered frame. -/
def mkResult (dff : List CaseRecord) : AggregateResult :=
  { totalCases := sumCases dff
    firstYear := colMin (yearsOf dff)
    lastYear := colMax (yearsOf dff)
    byYear := barData dff
    byCounty := mapData dff }

/-- The whole pipeline: filter, then summarise and group. -/
def aggregate (df : List CaseRecord) (sel : FilterSelection) :
    Except String AggregateResult :=
  match filteredRecords df sel with
  | .error e => .error e
  | .ok dff => .ok (mkResult dff)

/-- `update_dashboard` as seen by the caller: the derived result, paired
with the table the caller still holds (the code filters a `df.copy()`,
never `df` itself). -/
def updateDashboard (df : List CaseRecord) (sel : FilterSelection) :
    Except String (AggregateResult × List CaseRecord) :=
  match aggregate df sel with
  | .error e => .error e
  | .ok r => .ok (r, df)

/-- The empty-frame result: `totalCases = 0`, no first/last year, empty
chart and map data. -/
def emptyResult : AggregateResult :=
  { totalCases := 0, firstYear := none, lastYear := none, byYear := [], byCounty := [] }

/-! ### Filter-option vocabularies (lines 26-29 of `dash_app.py`) -/

/-- `['All Diseases'] + sorted(df['Disease'].unique())` -/
def diseaseOptions (df : List CaseRecord) : List String :=
  "All Diseases" :: List.insertionSort strLeRel (df.map (·.disease)).dedup

/-- `['All Counties'] + sorted(df['County'].unique())` -/
def countyOptions (df : List CaseRecord) : List String :=
  "All Counties" :: List.insertionSort strLeRel (df.map (·.county)).dedup

/-- `['All Years'] + sorted(df['Year'].astype(str).unique())` -/
def yearOptions (df : List CaseRecord) : List String :=
  "All Years" :: List.insertionSort strLeRel (df.map (fun r => toString r.year)).dedup

/-- `['All'] + sorted(df['Sex'].unique())` -/
def sexOptions (df : List CaseRecord) : List String :=
  "All" :: List.insertionSort strLeRel (df.map (·.sex)).dedup

/-! ### The spec-side filter predicate

`specMatches` is the declarative predicate of the specification
(§4.2 step 1 / §8): a record is retained iff every non-wildcard
selection field equals the record's corresponding field, the year
compared numerically.  The pipeline's sequential filters are proved to
refine it. -/

def specMatches (sel : FilterSelection) (r : CaseRecord) : Bool :=
  (sel.disease == "All Diseases" || r.disease == sel.disease) &&
  (sel.county == "All Counties" || r.county == sel.county) &&
  (sel.year == "All Years" || pythonInt sel.year == some r.year) &&
  (sel.sex == "All" || r.sex == sel.sex)

/-- All four selection fields are the wildcard sentinels. -/
def allWildcards (sel : FilterSelection) : Prop :=
  sel.disease = "All Diseases" ∧ sel.county = "All Counties" ∧
  sel.year = "All Years" ∧ sel.sex = "All"

/-- The year field raises no `ValueError`: it is the wildcard or a
string `int()` accepts. -/
def yearParses (sel : FilterSelection) : Prop :=
  sel.year = "All Years" ∨ (pythonInt sel.year).isSome = true

/-! ### Dataset loader (`dash_app.py` lines 16-29, `streamlit_app.py`
lines 114-120 and 167-172) -/

/-- The tabular file as read by `pd.read_csv`: named columns of raw
string cells (`df['Year'].astype(str)` renders every cell as a string,
so string cells suffice for the loader, which never computes on them). -/
structure RawTable where
  cols : List (String × List String)
deriving DecidableEq

/-- `df[name]`: pandas raises `KeyError` naming the column when it is
absent. -/
def getCol (t : RawTable) (name : String) : Except String (List String) :=
  match t.cols.lookup name with
  | some v => .ok v
  | none => .error ("KeyError: " ++ name)

def hasCol (t : RawTable) (name : String) : Prop :=
  (t.cols.lookup name).isSome = true

instance (t : RawTable) (name : String) : Decidable (hasCol t name) :=
  instDecidableEqBool (t.cols.lookup name).isSome true

/-- One GeoJSON feature; `properties` models
`feature.get('properties', {})` (a missing map becomes `[]`). -/
structure Feature where
  properties : List (String × String)
deriving DecidableEq

def hasProp (f : Feature) (k : String) : Prop :=
  (f.properties.lookup k).isSome = true

instance (f : Feature) (k : String) : Decidable (hasProp f k) :=
  instDecidableEqBool (f.properties.lookup k).isSome true

/-- Streamlit lines 167-172: default `properties.NAME`; switch to
`properties.name` when the first feature has `name` but not `NAME`. -/
def geojsonFeatureKey (geo : List Feature) : String :=
  match geo with
  | [] => "properties.NAME"
  | f :: _ =>
    if (f.properties.lookup "name").isSome && !(f.properties.lookup "NAME").isSome
    then "properties.name"
    else "properties.NAME"

/-- The message of the `FileNotFoundError` raised at `dash_app.py`
line 17. -/
def notFoundMsg : String :=
  "CSV or GeoJSON file not found in project directory"

def csvFileName : String :=
  "california_infectious_diseases.csv"

def geoFileName : String :=
  "california-counties.geojson"

/-- Everything the startup sequence exposes to the rest of the app. -/
structure LoadedData where
  diseases : List String
  counties : List String
  years : List String
  sexes : List String
  featureKey : String
deriving DecidableEq

/-- `['All Diseases'] + sorted(col.unique())` on a raw string column. -/
def colOptions (sentinel : String) (col : List String) : List String :=
  sentinel :: List.insertionSort strLeRel col.dedup

/-- The startup sequence: existence check (line 16-17), then the four
vocabulary lines (26-29, touching columns `Disease`, `County`, `Year`,
`Sex` in that order), then the feature-key detection.  No other
validation of the table or of the boundary file happens. -/
def loadAll (csvExists geoExists : Bool) (t : RawTable) (geo : List Feature) :
    Except String LoadedData :=
  if !csvExists || !geoExists then .error notFoundMsg
  else
    match getCol t "Disease" with
    | .error e => .error e
    | .ok ds =>
      match getCol t "County" with
      | .error e => .error e
      | .ok cs =>
        match getCol t "Year" with
        | .error e => .error e
        | .ok ys =>
          match getCol t "Sex" with
          | .error e => .error e
          | .ok ss =>
            .ok { diseases := colOptions "All Diseases" ds
                  counties := colOptions "All Counties" cs
                  years := colOptions "All Years" ys
                  sexes := colOptions "All" ss
                  featureKey := geojsonFeatureKey geo }

/-! ### The sequential filters refine the declarative predicate -/

theorem applyDiseaseFilter_eq (sel : FilterSelection) (l : List CaseRecord) :
    applyDiseaseFilter sel l =
      l.filter (fun r => sel.disease == "All Diseases" || r.disease == sel.disease) := by
  unfold applyDiseaseFilter
  cases h : (sel.disease == "All Diseases") <;> simp [h]

theorem applyCountyFilter_eq (sel : FilterSelection) (l : List CaseRecord) :
    applyCountyFilter sel l =
      l.filter (fun r => sel.county == "All Counties" || r.county == sel.county) := by
  unfold applyCountyFilter
  cases h : (sel.county == "All Counties") <;> simp [h]

theorem applySexFilter_eq (sel : FilterSelection) (l : List CaseRecord) :
    applySexFilter sel l =
      l.filter (fun r => sel.sex == "All" || r.sex == sel.sex) := by
  unfold applySexFilter
  cases h : (sel.sex == "All") <;> simp [h]

theorem someBeqComm (a b : Int) : (some a == some b) = (b == a) := by
  by_cases h : a = b
  · subst h; simp
  · have h' : b ≠ a := fun hh => h hh.symm
    simp [h, h']

theorem applyYearFilter_eq (sel : FilterSelection) (l : List CaseRecord)
    (h : yearParses sel) :
    applyYearFilter sel l =
      .ok (l.filter (fun r => sel.year == "All Years" || pythonInt sel.year == some r.year)) := by
  by_cases hw : sel.year = "All Years"
  · unfold applyYearFilter
    simp [hw]
  · have h' : (pythonInt sel.year).isSome = true := by
      rcases h with h | h
      · exact absurd h hw
      · exact h
    obtain ⟨y, hy⟩ := Option.isSome_iff_exists.mp h'
    have hwb : (sel.year == "All Years") = false := by
      simp [hw]
    unfold applyYearFilter
    rw [hwb, hy]
    simp only [Bool.false_eq_true, if_false, Except.ok.injEq]
    apply List.filter_congr
    intro r hr
    simp only [hwb, Bool.false_or, hy]
    exact (someBeqComm y r.year).symm

theorem filteredRecords_ok (df : List CaseRecord) (sel : FilterSelection)
    (h : yearParses sel) :
    filteredRecords df sel = .ok (df.filter (specMatches sel)) := by
  unfold filteredRecords
  rw [applyYearFilter_eq _ _ h]
  simp only [Except.map]
  congr 1
  rw [applySexFilter_eq, applyCountyFilter_eq, applyDiseaseFilter_eq,
      List.filter_filter, List.filter_filter, List.filter_filter]
  apply List.filter_congr
  intro r hr
  unfold specMatches
  cases h1 : (sel.disease == "All Diseases" || r.disease == sel.disease) <;>
    cases h2 : (sel.county == "All Counties" || r.county == sel.county) <;>
      cases h3 : (sel.year == "All Years" || pythonInt sel.year == some r.year) <;>
        cases h4 : (sel.sex == "All" || r.sex == sel.sex) <;>
          simp [h1, h2, h3, h4]

theorem filteredRecords_error (df : List CaseRecord) (sel : FilterSelection)
    (h : ¬ yearParses sel) :
    filteredRecords df sel = .error "ValueError" := by
  unfold yearParses at h
  push_neg at h
  obtain ⟨hw, hn⟩ := h
  have hn' : pythonInt sel.year = none := by
    cases hp : pythonInt sel.year with
    | none => rfl
    | some y => rw [hp] at hn; simp at hn
  have hwb : (sel.year == "All Years") = false := by
    simp [hw]
  unfold filteredRecords applyYearFilter
  rw [hwb, hn']
  rfl

theorem aggregate_ok (df : List CaseRecord) (sel : FilterSelection)
    (h : yearParses sel) :
    aggregate df sel = .ok (mkResult (df.filter (specMatches sel))) := by
  unfold aggregate
  rw [filteredRecords_ok df sel h]

theorem aggregate_error (df : List CaseRecord) (sel : FilterSelection)
    (h : ¬ yearParses sel) :
    aggregate df sel = .error "ValueError" := by
  unfold aggregate
  rw [filteredRecords_error df sel h]

theorem aggregate_ok_inv (df : List CaseRecord) (sel : FilterSelection)
    (res : AggregateResult) (h : aggregate df sel = .ok res) :
    yearParses sel ∧ res = mkResult (df.filter (specMatches sel)) := by
  by_cases hy : yearParses sel
  · rw [aggregate_ok df sel hy] at h
    exact ⟨hy, (Except.ok.inj h).symm⟩
  · rw [aggregate_error df sel hy] at h
    cases h

/-! ### Min/max of the Year column -/

theorem colMin_eq_none (l : List Int) : colMin l = none ↔ l = [] := by
  cases l <;> simp [colMin]

theorem colMax_eq_none (l : List Int) : colMax l = none ↔ l = [] := by
  cases l <;> simp [colMax]

theorem colMin_spec (l : List Int) (m : Int) (h : colMin l = some m) :
    m ∈ l ∧ ∀ x ∈ l, m ≤ x := by
  induction l generalizing m with
  | nil => cases h
  | cons y ys ih =>
    cases hys : colMin ys with
    | none =>
      have hnil : ys = [] := (colMin_eq_none ys).mp hys
      subst hnil
      have hmy : m = y := by simp [colMin] at h; omega
      subst hmy
      exact ⟨List.mem_singleton_self m, by intro x hx; rw [List.mem_singleton.mp hx]⟩
    | some m' =>
      have hm : m = min y m' := by
        simp [colMin, hys] at h
        exact h.symm
      obtain ⟨hmem, hbd⟩ := ih m' hys
      constructor
      · rcases le_total y m' with hle | hle
        · rw [hm, min_eq_left hle]; exact List.mem_cons_self y ys
        · rw [hm, min_eq_right hle]; exact List.mem_cons_of_mem y hmem
      · intro x hx
        rcases List.mem_cons.mp hx with rfl | hx'
        · rw [hm]; exact min_le_left _ _
        · rw [hm]; exact le_trans (min_le_right y m') (hbd x hx')

theorem colMax_spec (l : List Int) (m : Int) (h : colMax l = some m) :
    m ∈ l ∧ ∀ x ∈ l, x ≤ m := by
  induction l generalizing m with
  | nil => cases h
  | cons y ys ih =>
    cases hys : colMax ys with
    | none =>
      have hnil : ys = [] := (colMax_eq_none ys).mp hys
      subst hnil
      have hmy : m = y := by simp [colMax] at h; omega
      subst hmy
      exact ⟨List.mem_singleton_self m, by intro x hx; rw [List.mem_singleton.mp hx]⟩
    | some m' =>
      have hm : m = max y m' := by
        simp [colMax, hys] at h
        exact h.symm
      obtain ⟨hmem, hbd⟩ := ih m' hys
      constructor
      · rcases le_total y m' with hle | hle
        · rw [hm, max_eq_right hle]; exact List.mem_cons_of_mem y hmem
        · rw [hm, max_eq_left hle]; exact List.mem_cons_self y ys
      · intro x hx
        rcases List.mem_cons.mp hx with rfl | hx'
        · rw [hm]; exact le_max_left _ _
        · rw [hm]; exact le_trans (hbd x hx') (le_max_right y m')

/-! ### Group-and-sum over a nodup key list -/

theorem sum_map_zero {K : Type} (ks : List K) :
    (ks.map (fun _ => (0 : Int))).sum = 0 := by
  induction ks <;> simp [*]

theorem sum_map_add {K : Type} (f g : K → Int) (ks : List K) :
    (ks.map (fun k => f k + g k)).sum = (ks.map f).sum + (ks.map g).sum := by
  induction ks with
  | nil => simp
  | cons a t ih =>
    simp only [List.map_cons, List.sum_cons, ih]
    ring

theorem sum_map_ite_zero {K : Type} [BEq K] [LawfulBEq K] (ks : List K) (k₀ : K)
    (v : Int) (h : k₀ ∉ ks) :
    (ks.map (fun k => if k₀ == k then v else 0)).sum = 0 := by
  induction ks with
  | nil => simp
  | cons a t ih =>
    have hne : k₀ ≠ a := fun hh => h (hh ▸ List.mem_cons_self a t)
    have hb : (k₀ == a) = false := beq_eq_false_iff_ne.mpr hne
    simp only [List.map_cons, List.sum_cons, hb, Bool.false_eq_true, if_false]
    rw [ih (fun ht => h (List.mem_cons_of_mem a ht))]
    ring

theorem sum_map_ite {K : Type} [BEq K] [LawfulBEq K] (ks : List K) (k₀ : K)
    (v : Int) (hnd : ks.Nodup) (hk : k₀ ∈ ks) :
    (ks.map (fun k => if k₀ == k then v else 0)).sum = v := by
  induction ks with
  | nil => cases hk
  | cons a t ih =>
    obtain ⟨hat, hndt⟩ := List.nodup_cons.mp hnd
    rcases List.mem_cons.mp hk with rfl | hk'
    · simp only [List.map_cons, List.sum_cons, beq_self_eq_true, if_true]
      rw [sum_map_ite_zero t k₀ v hat]
      ring
    · have hne : k₀ ≠ a := fun hh => hat (hh ▸ hk')
      have hb : (k₀ == a) = false := beq_eq_false_iff_ne.mpr hne
      simp only [List.map_cons, List.sum_cons, hb, Bool.false_eq_true, if_false]
      rw [ih hndt hk']
      ring

theorem groupSum {K : Type} [BEq K] [LawfulBEq K] (key : CaseRecord → K)
    (l : List CaseRecord) (ks : List K) (hnd : ks.Nodup)
    (hcov : ∀ r ∈ l, key r ∈ ks) :
    (ks.map (fun k => sumCases (l.filter (fun r => key r == k)))).sum = sumCases l := by
  induction l with
  | nil =>
    simp only [List.filter_nil]
    have h0 : sumCases ([] : List CaseRecord) = 0 := rfl
    simp only [h0]
    exact sum_map_zero ks
  | cons r t ih =>
    have hstep : ∀ k, sumCases ((r :: t).filter (fun rr => key rr == k)) =
        (if key r == k then r.cases else 0) + sumCases (t.filter (fun rr => key rr == k)) := by
      intro k
      cases h : (key r == k) <;> simp [List.filter_cons, h, sumCases]
    simp only [hstep]
    rw [sum_map_add, sum_map_ite ks (key r) r.cases hnd (hcov r (List.mem_cons_self r t)),
        ih (fun rr hrr => hcov rr (List.mem_cons_of_mem r hrr))]
    simp [sumCases]

/-! ### Properties of the grouped aggregates -/

theorem barData_fst (l : List CaseRecord) :
    (barData l).map Prod.fst = List.insertionSort (· ≤ ·) (yearsOf l).dedup := by
  unfold barData
  rw [List.map_map]
  have hcomp : (Prod.fst ∘ fun y => (y, sumCases (l.filter (fun r => r.year == y)))) =
      (id : Int → Int) := rfl
  rw [hcomp, List.map_id]

theorem barData_fst_nodup (l : List CaseRecord) :
    ((barData l).map Prod.fst).Nodup := by
  rw [barData_fst]
  exact ((List.perm_insertionSort _ _).nodup_iff).mpr (List.nodup_dedup _)

theorem barData_fst_sorted (l : List CaseRecord) :
    ((barData l).map Prod.fst).Sorted (· < ·) := by
  have hle : ((barData l).map Prod.fst).Sorted (· ≤ ·) := by
    rw [barData_fst]
    exact List.sorted_insertionSort (· ≤ ·) _
  exact hle.lt_of_le (barData_fst_nodup l)

theorem barData_fst_mem (l : List CaseRecord) (y : Int) :
    y ∈ (barData l).map Prod.fst ↔ y ∈ yearsOf l := by
  rw [barData_fst, List.mem_insertionSort]
  exact List.mem_dedup

theorem barData_val (l : List CaseRecord) (p : Int × Int) (hp : p ∈ barData l) :
    p.2 = sumCases (l.filter (fun r => r.year == p.1)) := by
  unfold barData at hp
  obtain ⟨y, _, rfl⟩ := List.mem_map.mp hp
  rfl

theorem barData_sum (l : List CaseRecord) :
    ((barData l).map Prod.snd).sum = sumCases l := by
  unfold barData
  rw [List.map_map]
  have hcomp : (Prod.snd ∘ fun y => (y, sumCases (l.filter (fun r => r.year == y)))) =
      fun y => sumCases (l.filter (fun r => r.year == y)) := rfl
  rw [hcomp]
  refine groupSum (·.year) l _ ?_ ?_
  · exact ((List.perm_insertionSort _ _).nodup_iff).mpr (List.nodup_dedup _)
  · intro r hr
    rw [List.mem_insertionSort, List.mem_dedup]
    exact List.mem_map_of_mem (·.year) hr

theorem mapDataRaw_fst (l : List CaseRecord) :
    (mapDataRaw l).map Prod.fst = List.insertionSort strLeRel (countiesOf l).dedup := by
  unfold mapDataRaw
  rw [List.map_map]
  have hcomp : (Prod.fst ∘ fun c => (c, sumCases (l.filter (fun r => r.county == c)))) =
      (id : String → String) := rfl
  rw [hcomp, List.map_id]

theorem mapDataRaw_fst_nodup (l : List CaseRecord) :
    ((mapDataRaw l).map Prod.fst).Nodup := by
  rw [mapDataRaw_fst]
  exact ((List.perm_insertionSort _ _).nodup_iff).mpr (List.nodup_dedup _)

theorem mapDataRaw_fst_mem (l : List CaseRecord) (c : String) :
    c ∈ (mapDataRaw l).map Prod.fst ↔ c ∈ countiesOf l := by
  rw [mapDataRaw_fst, List.mem_insertionSort]
  exact List.mem_dedup

theorem mapDataRaw_val (l : List CaseRecord) (p : String × Int) (hp : p ∈ mapDataRaw l) :
    p.2 = sumCases (l.filter (fun r => r.county == p.1)) := by
  unfold mapDataRaw at hp
  obtain ⟨c, _, rfl⟩ := List.mem_map.mp hp
  rfl

theorem mapDataRaw_sum (l : List CaseRecord) :
    ((mapDataRaw l).map Prod.snd).sum = sumCases l := by
  unfold mapDataRaw
  rw [List.map_map]
  have hcomp : (Prod.snd ∘ fun c => (c, sumCases (l.filter (fun r => r.county == c)))) =
      fun c => sumCases (l.filter (fun r => r.county == c)) := rfl
  rw [hcomp]
  refine groupSum (·.county) l _ ?_ ?_
  · exact ((List.perm_insertionSort _ _).nodup_iff).mpr (List.nodup_dedup _)
  · intro r hr
    rw [List.mem_insertionSort, List.mem_dedup]
    exact List.mem_map_of_mem (·.county) hr

theorem mapData_sum (l : List CaseRecord) :
    ((mapData l).map Prod.snd).sum = sumCases l := by
  unfold mapData
  rw [List.map_map]
  have hcomp : (Prod.snd ∘ fun p : String × Int => (pyTitle p.1, p.2)) = Prod.snd := rfl
  rw [hcomp]
  exact mapDataRaw_sum l

theorem mapData_length (l : List CaseRecord) :
    (mapData l).length = (countiesOf l).dedup.length := by
  unfold mapData mapDataRaw
  rw [List.length_map, List.length_map, (List.perm_insertionSort _ _).length_eq]

theorem mapData_val (l : List CaseRecord) (p : String × Int) (hp : p ∈ mapData l) :
    ∃ c, c ∈ countiesOf l ∧ p.1 = pyTitle c ∧
      p.2 = sumCases (l.filter (fun r => r.county == c)) := by
  unfold mapData at hp
  obtain ⟨q, hq, rfl⟩ := List.mem_map.mp hp
  refine ⟨q.1, ?_, rfl, mapDataRaw_val l q hq⟩
  exact (mapDataRaw_fst_mem l q.1).mp (List.mem_map_of_mem Prod.fst hq)

theorem mapData_fst_mem (l : List CaseRecord) (c : String) (hc : c ∈ countiesOf l) :
    pyTitle c ∈ (mapData l).map Prod.fst := by
  unfold mapData
  rw [List.map_map]
  have hcomp : (Prod.fst ∘ fun p : String × Int => (pyTitle p.1, p.2)) =
      (fun p : String × Int => pyTitle p.1) := rfl
  rw [hcomp]
  have hcm : c ∈ (mapDataRaw l).map Prod.fst := (mapDataRaw_fst_mem l c).mpr hc
  obtain ⟨q, hq, hq1⟩ := List.mem_map.mp hcm
  exact List.mem_map.mpr ⟨q, hq, by rw [hq1]⟩

theorem mapData_fst_nodup (l : List CaseRecord)
    (hinj : ∀ c₁ ∈ countiesOf l, ∀ c₂ ∈ countiesOf l, pyTitle c₁ = pyTitle c₂ → c₁ = c₂) :
    ((mapData l).map Prod.fst).Nodup := by
  unfold mapData
  rw [List.map_map]
  have hcomp : (Prod.fst ∘ fun p : String × Int => (pyTitle p.1, p.2)) =
      (pyTitle ∘ Prod.fst) := rfl
  rw [hcomp, ← List.map_map]
  refine List.Nodup.map_on ?_ (mapDataRaw_fst_nodup l)
  intro x hx y hy hxy
  exact hinj x ((mapDataRaw_fst_mem l x).mp hx) y ((mapDataRaw_fst_mem l y).mp hy) hxy

/-! ### Substring test (used to check whether an error message names a
path) -/

def startsWithChars : List Char → List Char → Bool
  | [], _ => true
  | _ :: _, [] => false
  | a :: as, b :: bs => a == b && startsWithChars as bs

def containsChars (needle : List Char) : List Char → Bool
  | [] => startsWithChars needle []
  | b :: bs => startsWithChars needle (b :: bs) || containsChars needle bs

/-- `needle in hay` for strings. -/
def hasSubstr (needle hay : String) : Bool :=
  containsChars needle.data hay.data

/-! ### Shared concrete data for witnesses and counterexamples -/

/-- The example dataset of spec §8. -/
def specExampleRecords : List CaseRecord :=
  [⟨"Flu", "Alameda", 2020, "M", 5⟩, ⟨"Flu", "Alameda", 2021, "F", 3⟩,
   ⟨"Measles", "Kern", 2020, "M", 2⟩]

/-- The example selection of spec §8: disease `Flu`, rest wildcard. -/
def fluSelection : FilterSelection :=
  ⟨"Flu", "All Counties", "All Years", "All"⟩

/-- All four filters at their defaults. -/
def wildSelection : FilterSelection :=
  ⟨"All Diseases", "All Counties", "All Years", "All"⟩

/-- A selection whose year is a non-numeric string. -/
def badYearSel : FilterSelection :=
  ⟨"All Diseases", "All Counties", "abc", "All"⟩

/-! ### Claim theorems -/

/-- C1: for every record collection and filter selection on which the
pipeline succeeds, `totalCases` is the sum of `cases` over exactly the
records matching every non-wildcard selection field (year compared
numerically, the rest by string equality); with all four fields
wildcard it is the sum over the entire dataset. -/
theorem claim1_totalCases (df : List CaseRecord) (sel : FilterSelection)
    (res : AggregateResult) (h : aggregate df sel = .ok res) :
    res.totalCases = sumCases (df.filter (specMatches sel)) ∧
    (allWildcards sel → res.totalCases = sumCases df) := by
  obtain ⟨hy, rfl⟩ := aggregate_ok_inv df sel res h
  constructor
  · rfl
  · intro hw
    obtain ⟨h1, h2, h3, h4⟩ := hw
    have hall : df.filter (specMatches sel) = df := by
      rw [List.filter_eq_self]
      intro r hr
      unfold specMatches
      simp [h1, h2, h3, h4]
    rw [hall]
    rfl

theorem claim1_witness :
    (⟨8, some 2020, some 2021, [(2020, 5), (2021, 3)], [("Alameda", 8)]⟩ :
        AggregateResult).totalCases =
      sumCases (specExampleRecords.filter (specMatches fluSelection)) ∧
    (allWildcards fluSelection →
      (⟨8, some 2020, some 2021, [(2020, 5), (2021, 3)], [("Alameda", 8)]⟩ :
          AggregateResult).totalCases = sumCases specExampleRecords) :=
  claim1_totalCases specExampleRecords fluSelection _ (by decide)

/-- C2: on success, an empty filtered subset gives `firstYear = none`,
`lastYear = none` and `totalCases = 0`; a non-empty one gives
`firstYear` the minimum and `lastYear` the maximum of the years
occurring in the subset, hence `firstYear ≤ lastYear` and both occur
in it. -/
theorem claim2_yearRange (df : List CaseRecord) (sel : FilterSelection)
    (res : AggregateResult) (h : aggregate df sel = .ok res) :
    (df.filter (specMatches sel) = [] →
      res.firstYear = none ∧ res.lastYear = none ∧ res.totalCases = 0) ∧
    (df.filter (specMatches sel) ≠ [] →
      ∃ a b, res.firstYear = some a ∧ res.lastYear = some b ∧ a ≤ b ∧
        a ∈ yearsOf (df.filter (specMatches sel)) ∧
        b ∈ yearsOf (df.filter (specMatches sel)) ∧
        ∀ y ∈ yearsOf (df.filter (specMatches sel)), a ≤ y ∧ y ≤ b) := by
  obtain ⟨hy, rfl⟩ := aggregate_ok_inv df sel res h
  constructor
  · intro hnil
    rw [hnil]
    exact ⟨rfl, rfl, rfl⟩
  · intro hne
    have hyne : yearsOf (df.filter (specMatches sel)) ≠ [] := by
      intro hc
      exact hne (List.map_eq_nil_iff.mp hc)
    cases ha : colMin (yearsOf (df.filter (specMatches sel))) with
    | none => exact absurd ((colMin_eq_none _).mp ha) hyne
    | some a =>
      cases hb : colMax (yearsOf (df.filter (specMatches sel))) with
      | none => exact absurd ((colMax_eq_none _).mp hb) hyne
      | some b =>
        obtain ⟨hamem, habd⟩ := colMin_spec _ a ha
        obtain ⟨hbmem, hbbd⟩ := colMax_spec _ b hb
        refine ⟨a, b, ?_, ?_, habd b hbmem, hamem, hbmem, fun y hy' => ⟨habd y hy', hbbd y hy'⟩⟩
        · show colMin (yearsOf (df.filter (specMatches sel))) = some a
          exact ha
        · show colMax (yearsOf (df.filter (specMatches sel))) = some b
          exact hb

theorem claim2_witness :
    (specExampleRecords.filter (specMatches fluSelection) = [] →
      (⟨8, some 2020, some 2021, [(2020, 5), (2021, 3)], [("Alameda", 8)]⟩ :
          AggregateResult).firstYear = none ∧
      (⟨8, some 2020, some 2021, [(2020, 5), (2021, 3)], [("Alameda", 8)]⟩ :
          AggregateResult).lastYear = none ∧
      (⟨8, some 2020, some 2021, [(2020, 5), (2021, 3)], [("Alameda", 8)]⟩ :
          AggregateResult).totalCases = 0) ∧
    (specExampleRecords.filter (specMatches fluSelection) ≠ [] →
      ∃ a b,
        (⟨8, some 2020, some 2021, [(2020, 5), (2021, 3)], [("Alameda", 8)]⟩ :
            AggregateResult).firstYear = some a ∧
        (⟨8, some 2020, some 2021, [(2020, 5), (2021, 3)], [("Alameda", 8)]⟩ :
            AggregateResult).lastYear = some b ∧ a ≤ b ∧
        a ∈ yearsOf (specExampleRecords.filter (specMatches fluSelection)) ∧
        b ∈ yearsOf (specExampleRecords.filter (specMatches fluSelection)) ∧
        ∀ y ∈ yearsOf (specExampleRecords.filter (specMatches fluSelection)),
          a ≤ y ∧ y ≤ b) :=
  claim2_yearRange specExampleRecords fluSelection _ (by decide)

/-- C3: on success, the bar/line chart data `byYear` has strictly
ascending years (hence no duplicates), its years are exactly the years
of the filtered subset, each row's total is the sum of `cases` of the
filtered records with that year, and its totals sum to `totalCases`. -/
theorem claim3_byYear (df : List CaseRecord) (sel : FilterSelection)
    (res : AggregateResult) (h : aggregate df sel = .ok res) :
    (res.byYear.map Prod.fst).Sorted (· < ·) ∧
    (∀ y, y ∈ res.byYear.map Prod.fst ↔ y ∈ yearsOf (df.filter (specMatches sel))) ∧
    (∀ p ∈ res.byYear,
      p.2 = sumCases ((df.filter (specMatches sel)).filter (fun r => r.year == p.1))) ∧
    (res.byYear.map Prod.snd).sum = res.totalCases := by
  obtain ⟨hy, rfl⟩ := aggregate_ok_inv df sel res h
  exact ⟨barData_fst_sorted _, fun y => barData_fst_mem _ y,
    fun p hp => barData_val _ p hp, barData_sum _⟩

theorem claim3_witness :
    ((⟨8, some 2020, some 2021, [(2020, 5), (2021, 3)], [("Alameda", 8)]⟩ :
        AggregateResult).byYear.map Prod.fst).Sorted (· < ·) ∧
    (∀ y, y ∈ (⟨8, some 2020, some 2021, [(2020, 5), (2021, 3)], [("Alameda", 8)]⟩ :
        AggregateResult).byYear.map Prod.fst ↔
      y ∈ yearsOf (specExampleRecords.filter (specMatches fluSelection))) ∧
    (∀ p ∈ (⟨8, some 2020, some 2021, [(2020, 5), (2021, 3)], [("Alameda", 8)]⟩ :
        AggregateResult).byYear,
      p.2 = sumCases ((specExampleRecords.filter (specMatches fluSelection)).filter
        (fun r => r.year == p.1))) ∧
    ((⟨8, some 2020, some 2021, [(2020, 5), (2021, 3)], [("Alameda", 8)]⟩ :
        AggregateResult).byYear.map Prod.snd).sum =
      (⟨8, some 2020, some 2021, [(2020, 5), (2021, 3)], [("Alameda", 8)]⟩ :
        AggregateResult).totalCases :=
  claim3_byYear specExampleRecords fluSelection _ (by decide)

/-- Two records whose raw counties differ only in letter case. -/
def dupCountyRecords : List CaseRecord :=
  [⟨"d", "AB", 2000, "M", 1⟩, ⟨"d", "Ab", 2000, "M", 1⟩]

/-- C4 counterexample: the map data groups by the raw county and
title-cases afterwards, so the counties `AB` and `Ab` both become a
row labelled `Ab` — `byCounty` carries a duplicate county entry. -/
theorem claim4_counterexample :
    aggregate dupCountyRecords wildSelection =
      .ok ⟨2, some 2000, some 2000, [(2000, 2)], [("Ab", 1), ("Ab", 1)]⟩ ∧
    ¬ ((((aggregate dupCountyRecords wildSelection).toOption.getD
          emptyResult).byCounty.map Prod.fst).Nodup) := by
  have h : aggregate dupCountyRecords wildSelection =
      .ok ⟨2, some 2000, some 2000, [(2000, 2)], [("Ab", 1), ("Ab", 1)]⟩ := by decide
  refine ⟨h, ?_⟩
  rw [h]
  decide

/-- C4 amended: on success, `byCounty` has one entry per distinct raw
county of the filtered subset (title-cased for display; entries can
collide when distinct raw counties share a title-casing, and are
duplicate-free whenever title-casing is injective on the subset's
counties), its totals sum to `totalCases`, each entry is the group sum
of one raw county, and two calls on the same input agree. -/
theorem claim4_amended (df : List CaseRecord) (sel : FilterSelection)
    (res : AggregateResult) (h : aggregate df sel = .ok res) :
    (res.byCounty.map Prod.snd).sum = res.totalCases ∧
    res.byCounty.length = ((countiesOf (df.filter (specMatches sel))).dedup).length ∧
    (∀ c ∈ countiesOf (df.filter (specMatches sel)),
      pyTitle c ∈ res.byCounty.map Prod.fst) ∧
    (∀ p ∈ res.byCounty, ∃ c, c ∈ countiesOf (df.filter (specMatches sel)) ∧
      p.1 = pyTitle c ∧
      p.2 = sumCases ((df.filter (specMatches sel)).filter (fun r => r.county == c))) ∧
    ((∀ c₁ ∈ countiesOf (df.filter (specMatches sel)),
        ∀ c₂ ∈ countiesOf (df.filter (specMatches sel)),
          pyTitle c₁ = pyTitle c₂ → c₁ = c₂) →
      (res.byCounty.map Prod.fst).Nodup) ∧
    (∀ res₂, aggregate df sel = .ok res₂ → res₂.byCounty = res.byCounty) := by
  obtain ⟨hy, rfl⟩ := aggregate_ok_inv df sel res h
  refine ⟨mapData_sum _, mapData_length _, fun c hc => mapData_fst_mem _ c hc,
    fun p hp => mapData_val _ p hp, fun hinj => mapData_fst_nodup _ hinj, ?_⟩
  intro res₂ h₂
  obtain ⟨_, rfl⟩ := aggregate_ok_inv df sel res₂ h₂
  rfl

theorem claim4_witness :
    ((⟨8, some 2020, some 2021, [(2020, 5), (2021, 3)], [("Alameda", 8)]⟩ :
        AggregateResult).byCounty.map Prod.snd).sum =
      (⟨8, some 2020, some 2021, [(2020, 5), (2021, 3)], [("Alameda", 8)]⟩ :
        AggregateResult).totalCases ∧
    (⟨8, some 2020, some 2021, [(2020, 5), (2021, 3)], [("Alameda", 8)]⟩ :
        AggregateResult).byCounty.length =
      ((countiesOf (specExampleRecords.filter (specMatches fluSelection))).dedup).length ∧
    (∀ c ∈ countiesOf (specExampleRecords.filter (specMatches fluSelection)),
      pyTitle c ∈ (⟨8, some 2020, some 2021, [(2020, 5), (2021, 3)], [("Alameda", 8)]⟩ :
        AggregateResult).byCounty.map Prod.fst) ∧
    (∀ p ∈ (⟨8, some 2020, some 2021, [(2020, 5), (2021, 3)], [("Alameda", 8)]⟩ :
        AggregateResult).byCounty,
      ∃ c, c ∈ countiesOf (specExampleRecords.filter (specMatches fluSelection)) ∧
        p.1 = pyTitle c ∧
        p.2 = sumCases ((specExampleRecords.filter (specMatches fluSelection)).filter
          (fun r => r.county == c))) ∧
    ((∀ c₁ ∈ countiesOf (specExampleRecords.filter (specMatches fluSelection)),
        ∀ c₂ ∈ countiesOf (specExampleRecords.filter (specMatches fluSelection)),
          pyTitle c₁ = pyTitle c₂ → c₁ = c₂) →
      ((⟨8, some 2020, some 2021, [(2020, 5), (2021, 3)], [("Alameda", 8)]⟩ :
          AggregateResult).byCounty.map Prod.fst).Nodup) ∧
    (∀ res₂, aggregate specExampleRecords fluSelection = .ok res₂ →
      res₂.byCounty = (⟨8, some 2020, some 2021, [(2020, 5), (2021, 3)], [("Alameda", 8)]⟩ :
        AggregateResult).byCounty) :=
  claim4_amended specExampleRecords fluSelection _ (by decide)

def emptyTable : RawTable := ⟨[]⟩

/-- C5 counterexample: when the CSV is missing, startup fails, but with
a fixed message that names neither of the two paths. -/
theorem claim5_counterexample :
    loadAll false true emptyTable [] = .error notFoundMsg ∧
    hasSubstr csvFileName notFoundMsg = false ∧
    hasSubstr geoFileName notFoundMsg = false := by
  refine ⟨rfl, by decide, by decide⟩

/-- C5 amended: the loader fails fatally (no data is produced) whenever
either path does not exist, raising a file-not-found error whose
message is a fixed string that does not name the missing path. -/
theorem claim5_amended (c g : Bool) (t : RawTable) (geo : List Feature)
    (h : c = false ∨ g = false) :
    loadAll c g t geo = .error notFoundMsg ∧
    hasSubstr csvFileName notFoundMsg = false ∧
    hasSubstr geoFileName notFoundMsg = false := by
  refine ⟨?_, by decide, by decide⟩
  unfold loadAll
  rcases h with rfl | rfl
  · simp
  · cases c <;> simp

theorem claim5_witness :
    (loadAll false true emptyTable [] = .error notFoundMsg ∧
      hasSubstr csvFileName notFoundMsg = false ∧
      hasSubstr geoFileName notFoundMsg = false) :=
  claim5_amended false true emptyTable [] (Or.inl rfl)

/-- The four filter columns, but no `Cases` column. -/
def noCasesTable : RawTable :=
  ⟨[("Disease", ["Flu"]), ("County", ["Kern"]), ("Year", ["2020"]), ("Sex", ["M"])]⟩

/-- The table of the spec §8 loader example, its `Sex` column removed. -/
def noSexTable : RawTable :=
  ⟨[("Disease", ["Flu"]), ("County", ["Kern"]), ("Year", ["2020"])]⟩

/-- C6 counterexample: a table lacking the required `Cases` column,
together with a boundary file with zero features, loads with no error
at all — the loader checks neither. -/
theorem claim6_counterexample :
    loadAll true true noCasesTable [] =
      .ok ⟨["All Diseases", "Flu"], ["All Counties", "Kern"],
           ["All Years", "2020"], ["All", "M"], "properties.NAME"⟩ := by
  decide

theorem hasCol_none (t : RawTable) (n : String) (h : ¬ hasCol t n) :
    t.cols.lookup n = none := by
  cases hlk : t.cols.lookup n with
  | none => rfl
  | some v => exact absurd (by unfold hasCol; rw [hlk]; rfl) h

/-- C6 amended: the loader touches only the four filter columns, in the
access order `Disease`, `County`, `Year`, `Sex`; when the table lacks
any of those four, it fails with a `KeyError` naming the first missing
column in that order — in particular a table with the first three but
no `Sex` column fails with `KeyError` naming `Sex` — and a table with
all four loads successfully regardless of a missing `Cases` column or
of the boundary features. -/
theorem claim6_amended (t : RawTable) (geo : List Feature) :
    (¬ hasCol t "Disease" →
      loadAll true true t geo = .error ("KeyError: " ++ "Disease")) ∧
    (hasCol t "Disease" → ¬ hasCol t "County" →
      loadAll true true t geo = .error ("KeyError: " ++ "County")) ∧
    (hasCol t "Disease" → hasCol t "County" → ¬ hasCol t "Year" →
      loadAll true true t geo = .error ("KeyError: " ++ "Year")) ∧
    (hasCol t "Disease" → hasCol t "County" → hasCol t "Year" → ¬ hasCol t "Sex" →
      loadAll true true t geo = .error ("KeyError: " ++ "Sex")) ∧
    (hasCol t "Disease" → hasCol t "County" → hasCol t "Year" → hasCol t "Sex" →
      ∃ d, loadAll true true t geo = .ok d) := by
  refine ⟨?_, ?_, ?_, ?_, ?_⟩
  · intro h
    simp [loadAll, getCol, hasCol_none t "Disease" h]
  · intro hd h
    obtain ⟨ds, hds⟩ := Option.isSome_iff_exists.mp hd
    simp [loadAll, getCol, hds, hasCol_none t "County" h]
  · intro hd hc h
    obtain ⟨ds, hds⟩ := Option.isSome_iff_exists.mp hd
    obtain ⟨cs, hcs⟩ := Option.isSome_iff_exists.mp hc
    simp [loadAll, getCol, hds, hcs, hasCol_none t "Year" h]
  · intro hd hc hy h
    obtain ⟨ds, hds⟩ := Option.isSome_iff_exists.mp hd
    obtain ⟨cs, hcs⟩ := Option.isSome_iff_exists.mp hc
    obtain ⟨ys, hys⟩ := Option.isSome_iff_exists.mp hy
    simp [loadAll, getCol, hds, hcs, hys, hasCol_none t "Sex" h]
  · intro hd hc hy hs
    obtain ⟨ds, hds⟩ := Option.isSome_iff_exists.mp hd
    obtain ⟨cs, hcs⟩ := Option.isSome_iff_exists.mp hc
    obtain ⟨ys, hys⟩ := Option.isSome_iff_exists.mp hy
    obtain ⟨ss, hss⟩ := Option.isSome_iff_exists.mp hs
    exact ⟨⟨colOptions "All Diseases" ds, colOptions "All Counties" cs,
            colOptions "All Years" ys, colOptions "All" ss, geojsonFeatureKey geo⟩,
      by simp [loadAll, getCol, hds, hcs, hys, hss]⟩

/-- A table lacking `Disease` (the first column the loader touches). -/
def noDiseaseTable : RawTable :=
  ⟨[("County", ["Kern"]), ("Year", ["2020"]), ("Sex", ["M"])]⟩

/-- A table lacking `County` (the second column the loader touches). -/
def noCountyTable : RawTable :=
  ⟨[("Disease", ["Flu"]), ("Year", ["2020"]), ("Sex", ["M"])]⟩

/-- A table lacking `Year` (the third column the loader touches). -/
def noYearTable : RawTable :=
  ⟨[("Disease", ["Flu"]), ("County", ["Kern"]), ("Sex", ["M"])]⟩

theorem claim6_witness :
    loadAll true true noDiseaseTable [] = .error ("KeyError: " ++ "Disease") ∧
    loadAll true true noCountyTable [] = .error ("KeyError: " ++ "County") ∧
    loadAll true true noYearTable [] = .error ("KeyError: " ++ "Year") ∧
    loadAll true true noSexTable [] = .error ("KeyError: " ++ "Sex") ∧
    ∃ d, loadAll true true noCasesTable [] = .ok d :=
  ⟨(claim6_amended noDiseaseTable []).1 (by decide),
   (claim6_amended noCountyTable []).2.1 (by decide) (by decide),
   (claim6_amended noYearTable []).2.2.1 (by decide) (by decide) (by decide),
   (claim6_amended noSexTable []).2.2.2.1 (by decide) (by decide) (by decide) (by decide),
   (claim6_amended noCasesTable []).2.2.2.2 (by decide) (by decide) (by decide) (by decide)⟩

/-- C7 counterexample: `abc` is a concrete year value absent from the
year vocabulary, yet the pipeline raises a `ValueError` from
`int(year)` instead of returning the empty-result aggregate — the
silent-empty policy does not hold for the year field. -/
theorem claim7_counterexample :
    badYearSel.year ∉ yearOptions specExampleRecords ∧
    badYearSel.year ≠ "All Years" ∧
    aggregate specExampleRecords badYearSel = .error "ValueError" :=
  ⟨by decide, by decide, by decide⟩

/-- C7 amended: provided the year field raises no `ValueError` (it is
the wildcard or a numeric string), a selection whose disease, county or
sex value is out of vocabulary — or whose concrete year parses to a
value no record carries — yields the empty-result aggregate silently; a
non-numeric concrete year raises instead of yielding an empty result. -/
theorem claim7_amended (df : List CaseRecord) (sel : FilterSelection)
    (hyear : sel.year = "All Years" ∨ (pythonInt sel.year).isSome = true)
    (hoov : sel.disease ∉ diseaseOptions df ∨ sel.county ∉ countyOptions df ∨
      sel.sex ∉ sexOptions df ∨
      ((∀ r ∈ df, pythonInt sel.year ≠ some r.year) ∧ sel.year ≠ "All Years")) :
    aggregate df sel = .ok emptyResult := by
  rw [aggregate_ok df sel hyear]
  have hfil : df.filter (specMatches sel) = [] := by
    rw [List.filter_eq_nil_iff]
    intro r hr
    unfold specMatches
    rcases hoov with hd | hc | hs | ⟨hyv, hyw⟩
    · have h1 : sel.disease ≠ "All Diseases" := by
        intro hh
        exact hd (hh ▸ List.mem_cons_self _ _)
      have hmem : r.disease ∈ diseaseOptions df := by
        unfold diseaseOptions
        refine List.mem_cons_of_mem _ ?_
        rw [List.mem_insertionSort, List.mem_dedup]
        exact List.mem_map_of_mem (·.disease) hr
      have h2 : r.disease ≠ sel.disease := by
        intro hh
        exact hd (hh ▸ hmem)
      simp [beq_eq_false_iff_ne.mpr h1, beq_eq_false_iff_ne.mpr h2]
    · have h1 : sel.county ≠ "All Counties" := by
        intro hh
        exact hc (hh ▸ List.mem_cons_self _ _)
      have hmem : r.county ∈ countyOptions df := by
        unfold countyOptions
        refine List.mem_cons_of_mem _ ?_
        rw [List.mem_insertionSort, List.mem_dedup]
        exact List.mem_map_of_mem (·.county) hr
      have h2 : r.county ≠ sel.county := by
        intro hh
        exact hc (hh ▸ hmem)
      simp [beq_eq_false_iff_ne.mpr h1, beq_eq_false_iff_ne.mpr h2]
    · have h1 : sel.sex ≠ "All" := by
        intro hh
        exact hs (hh ▸ List.mem_cons_self _ _)
      have hmem : r.sex ∈ sexOptions df := by
        unfold sexOptions
        refine List.mem_cons_of_mem _ ?_
        rw [List.mem_insertionSort, List.mem_dedup]
        exact List.mem_map_of_mem (·.sex) hr
      have h2 : r.sex ≠ sel.sex := by
        intro hh
        exact hs (hh ▸ hmem)
      simp [beq_eq_false_iff_ne.mpr h1, beq_eq_false_iff_ne.mpr h2]
    · simp [beq_eq_false_iff_ne.mpr hyw, beq_eq_false_iff_ne.mpr (hyv r hr)]
  rw [hfil]
  rfl

theorem claim7_witness :
    aggregate specExampleRecords ⟨"Zika", "All Counties", "All Years", "All"⟩ =
      .ok emptyResult :=
  claim7_amended specExampleRecords ⟨"Zika", "All Counties", "All Years", "All"⟩
    (Or.inl rfl) (Or.inl (by decide))

/-- C8: the pipeline is a pure function — two invocations on identical
`(records, selection)` arguments produce identical results, component
by component, and the caller's record collection after a call is the
collection it passed in (the code filters a `df.copy()`, never `df`). -/
theorem claim8_pure (df : List CaseRecord) (sel : FilterSelection)
    (r₁ r₂ : AggregateResult)
    (h₁ : aggregate df sel = .ok r₁) (h₂ : aggregate df sel = .ok r₂) :
    r₁.totalCases = r₂.totalCases ∧ r₁.firstYear = r₂.firstYear ∧
    r₁.lastYear = r₂.lastYear ∧ r₁.byYear = r₂.byYear ∧
    r₁.byCounty = r₂.byCounty ∧ r₁ = r₂ ∧
    (∀ p, updateDashboard df sel = .ok p → p.2 = df) := by
  rw [h₁] at h₂
  have heq : r₁ = r₂ := Except.ok.inj h₂
  subst heq
  refine ⟨rfl, rfl, rfl, rfl, rfl, rfl, ?_⟩
  intro p hp
  unfold updateDashboard at hp
  rw [h₁] at hp
  have hpe : (r₁, df) = p := Except.ok.inj hp
  rw [← hpe]

theorem claim8_witness :
    (⟨8, some 2020, some 2021, [(2020, 5), (2021, 3)], [("Alameda", 8)]⟩ :
        AggregateResult).totalCases =
      (⟨8, some 2020, some 2021, [(2020, 5), (2021, 3)], [("Alameda", 8)]⟩ :
        AggregateResult).totalCases ∧
    (⟨8, some 2020, some 2021, [(2020, 5), (2021, 3)], [("Alameda", 8)]⟩ :
        AggregateResult).firstYear =
      (⟨8, some 2020, some 2021, [(2020, 5), (2021, 3)], [("Alameda", 8)]⟩ :
        AggregateResult).firstYear ∧
    (⟨8, some 2020, some 2021, [(2020, 5), (2021, 3)], [("Alameda", 8)]⟩ :
        AggregateResult).lastYear =
      (⟨8, some 2020, some 2021, [(2020, 5), (2021, 3)], [("Alameda", 8)]⟩ :
        AggregateResult).lastYear ∧
    (⟨8, some 2020, some 2021, [(2020, 5), (2021, 3)], [("Alameda", 8)]⟩ :
        AggregateResult).byYear =
      (⟨8, some 2020, some 2021, [(2020, 5), (2021, 3)], [("Alameda", 8)]⟩ :
        AggregateResult).byYear ∧
    (⟨8, some 2020, some 2021, [(2020, 5), (2021, 3)], [("Alameda", 8)]⟩ :
        AggregateResult).byCounty =
      (⟨8, some 2020, some 2021, [(2020, 5), (2021, 3)], [("Alameda", 8)]⟩ :
        AggregateResult).byCounty ∧
    (⟨8, some 2020, some 2021, [(2020, 5), (2021, 3)], [("Alameda", 8)]⟩ :
        AggregateResult) =
      (⟨8, some 2020, some 2021, [(2020, 5), (2021, 3)], [("Alameda", 8)]⟩ :
        AggregateResult) ∧
    (∀ p, updateDashboard specExampleRecords fluSelection = .ok p →
      p.2 = specExampleRecords) :=
  claim8_pure specExampleRecords fluSelection _ _ (by decide) (by decide)

/-- The dash variant's county join: `px.choropleth_mapbox(...,
featureidkey='properties.NAME', ...)` at `dash_app.py` line 136.  The
key is a hard-coded literal; no property of the boundary collection is
inspected. -/
def dashMapFeatureKey (_geo : List Feature) : String :=
  "properties.NAME"

/-- A singleton boundary collection keyed by lowercase `name`. -/
def lowerKeyGeo : List Feature := [⟨[("name", "Alameda")]⟩]

/-- A singleton boundary collection keyed by uppercase `NAME`. -/
def upperKeyGeo : List Feature := [⟨[("NAME", "Alameda")]⟩]

/-- C9 counterexample: the dash variant does no detection — its county
join key is the constant `properties.NAME` even for a boundary
collection whose features carry only the key `name`, so the exposed key
is not `name` there. -/
theorem claim9_counterexample :
    (∀ f ∈ lowerKeyGeo, hasProp f "name" ∧ ¬ hasProp f "NAME") ∧
    dashMapFeatureKey lowerKeyGeo ≠ "properties.name" ∧
    dashMapFeatureKey lowerKeyGeo = "properties.NAME" :=
  ⟨by decide, by decide, rfl⟩

/-- C9 amended: only the Streamlit variant detects the boundary
property key, once at load time from the first feature: a non-empty
collection whose features carry only `name` yields `properties.name`,
one whose features carry `NAME` yields `properties.NAME`, and its join
uses the detected key.  The dash variant performs no detection and
always joins on the hard-coded key `properties.NAME`, whatever keys the
boundary collection carries. -/
theorem claim9_amended (geo : List Feature) (hne : geo ≠ []) :
    (((∀ f ∈ geo, hasProp f "name" ∧ ¬ hasProp f "NAME") →
      geojsonFeatureKey geo = "properties.name") ∧
    ((∀ f ∈ geo, hasProp f "NAME") →
      geojsonFeatureKey geo = "properties.NAME")) ∧
    dashMapFeatureKey geo = "properties.NAME" := by
  refine ⟨?_, rfl⟩
  cases geo with
  | nil => exact absurd rfl hne
  | cons f fs =>
    constructor
    · intro hall
      obtain ⟨hn, hN⟩ := hall f (List.mem_cons_self f fs)
      have h2 : (f.properties.lookup "NAME").isSome = false := by
        cases hh : (f.properties.lookup "NAME").isSome with
        | false => rfl
        | true => exact absurd hh hN
      have h1 : (f.properties.lookup "name").isSome = true := hn
      show (if ((f.properties.lookup "name").isSome &&
          !(f.properties.lookup "NAME").isSome) = true
        then "properties.name" else "properties.NAME") = "properties.name"
      rw [h1, h2]
      rfl
    · intro hall
      have hN : (f.properties.lookup "NAME").isSome = true :=
        hall f (List.mem_cons_self f fs)
      show (if ((f.properties.lookup "name").isSome &&
          !(f.properties.lookup "NAME").isSome) = true
        then "properties.name" else "properties.NAME") = "properties.NAME"
      cases hx : (f.properties.lookup "name").isSome with
      | false => rfl
      | true =>
        rw [hN]
        rfl

theorem claim9_witness :
    geojsonFeatureKey lowerKeyGeo = "properties.name" ∧
    geojsonFeatureKey upperKeyGeo = "properties.NAME" ∧
    dashMapFeatureKey upperKeyGeo = "properties.NAME" :=
  ⟨(claim9_amended lowerKeyGeo (by decide)).1.1 (by decide),
   (claim9_amended upperKeyGeo (by decide)).1.2 (by decide),
   (claim9_amended upperKeyGeo (by decide)).2⟩

/-- C10: the filter raises (and no `AggregateResult` is produced)
exactly when the year selection is concrete and `int(year)` rejects it;
when the year is the wildcard or a numeric string, the pipeline always
returns a result. -/
theorem claim10_yearTotal (df : List CaseRecord) (sel : FilterSelection) :
    ((sel.year ≠ "All Years" ∧ pythonInt sel.year = none) →
      aggregate df sel = .error "ValueError") ∧
    ((sel.year = "All Years" ∨ (pythonInt sel.year).isSome = true) →
      ∃ res, aggregate df sel = .ok res) := by
  constructor
  · intro ⟨h1, h2⟩
    apply aggregate_error
    intro hy
    rcases hy with hy | hy
    · exact h1 hy
    · rw [h2] at hy
      cases hy
  · intro h
    exact ⟨_, aggregate_ok df sel h⟩

theorem claim10_witness :
    aggregate specExampleRecords badYearSel = .error "ValueError" ∧
    ∃ res, aggregate specExampleRecords wildSelection = .ok res :=
  ⟨(claim10_yearTotal specExampleRecords badYearSel).1 ⟨by decide, by decide⟩,
   (claim10_yearTotal specExampleRecords wildSelection).2 (Or.inl rfl)⟩
